import Mathlib

/-!
Verification development for the annotation-tiling repository
(`src/splitter.py` and `src/split_annotations.py`).

The two Python files each define a function `split_image_and_annotations`
that cuts an image into a grid of tiles and clips polygon YOLO-format
records against every tile.  We give a shallow embedding of both
pipelines:

* real-valued pixel arithmetic is modelled over `ℚ` (Python floats are
  treated as exact reals; none of the claims hinges on binary rounding);
* a label-file line `line.strip().split()` is represented by its list of
  whitespace-separated tokens, and the whole file by a list of such token
  lists; a missing file is `Option.none`;
* the external geometry library (shapely) is an abstract capability
  `Env`: `float` parsing, `Polygon.buffer(0)`, `is_valid`, and
  `intersection` are fields of `Env`; everything the Python sources
  compute themselves (grid arithmetic, the geometry-type dispatch,
  `translate`, serialization, file naming) is embedded concretely;
* Python exceptions (`ValueError` from `float`, `IndexError` from the
  point comprehension, `FileNotFoundError` from `open`) are the error
  cases of `Except`.
-/

/-- Errors: the uncaught Python exceptions the two pipelines can raise. -/
inductive PErr where
  | valueErr
  | indexErr
  | fnf
deriving DecidableEq

/-- A point, as a pair of exact rational coordinates. -/
abbrev Pt : Type := ℚ × ℚ

/-- A shapely `Polygon`, reduced to the data the sources touch: its
exterior ring `poly.exterior.coords`, stored closed (when nonempty the
first vertex is repeated at the end, as shapely stores it). -/
structure SPoly where
  ring : List Pt
deriving DecidableEq

/-- Model of shapely `Polygon.is_empty` for a plain polygon. -/
def SPoly.isEmptyP (p : SPoly) : Bool :=
  p.ring.isEmpty

/-- Model of the shapely constructor `Polygon(points)`: the exterior ring
is the given vertex list, closed by repeating the first vertex at the end
when the input is not already closed. -/
def mkPoly (pts : List Pt) : SPoly :=
  match pts with
  | [] => ⟨[]⟩
  | p :: _ => if pts.getLast? = some p then ⟨pts⟩ else ⟨pts ++ [p]⟩

/-- Model of `shapely.affinity.translate(polygon, xoff=-sx, yoff=-sy)` as
called by `_shift_polygon` in both sources: subtract the shift from every
ring vertex. -/
def shiftPoly (p : SPoly) (sx sy : ℚ) : SPoly :=
  ⟨p.ring.map (fun v => (v.1 - sx, v.2 - sy))⟩

/-- The geometry values a shapely `intersection` can return, as far as the
sources inspect them: `geom_type` is `Polygon`, `MultiPolygon`, or
anything else (line, point, collection); `gother` records only whether
that other geometry is empty. -/
inductive Geom where
  | gpoly (p : SPoly)
  | gmulti (ps : List SPoly)
  | gother (emp : Bool)
deriving DecidableEq

/-- Model of shapely `is_empty` on an intersection result. -/
def Geom.isEmptyG : Geom → Bool
  | .gpoly p => p.ring.isEmpty
  | .gmulti ps => ps.isEmpty
  | .gother e => e

/-- The external capabilities both sources import: `float` parsing
(`None` models a `ValueError`), shapely `buffer(0)`, `is_valid` and
`intersection`.  The pipelines are parametric in this record; every
theorem quantifies over it or instantiates it. -/
structure Env where
  parseFloat : String → Option ℚ
  buffer0 : SPoly → SPoly
  isValid : SPoly → Bool
  intersect : SPoly → SPoly → Geom

/-! ### Grid computation (step 4 of both sources, identical text in both) -/

/-- Source: `row_count = math.ceil(img_height / tile_height)`. -/
def rowCount (H th : ℕ) : ℕ :=
  (H + th - 1) / th

/-- Source: `col_count = math.ceil(img_width / tile_width)`. -/
def colCount (W tw : ℕ) : ℕ :=
  (W + tw - 1) / tw

/-- One grid cell: its row/col index and the crop rectangle computed in
the tile loop of both sources. -/
structure TileRect where
  row : ℕ
  col : ℕ
  left : ℕ
  top : ℕ
  right : ℕ
  bottom : ℕ
deriving DecidableEq

/-- Source: `tile_left = col_idx * tile_width; tile_top = row_idx * tile_height;
tile_right = min(tile_left + tile_width, img_width);
tile_bottom = min(tile_top + tile_height, img_height)`. -/
def tileAt (W H tw th r c : ℕ) : TileRect :=
  ⟨r, c, c * tw, r * th, min (c * tw + tw) W, min (r * th + th) H⟩

/-- The grid in iteration order: `for row_idx in range(row_count): for
col_idx in range(col_count): ...` — row outer, col inner. -/
def tilesList (W H tw th : ℕ) : List TileRect :=
  (List.range (rowCount H th)).flatMap
    (fun r => (List.range (colCount W tw)).map (fun c => tileAt W H tw th r c))

/-- Source: `tile_polygon = Polygon([(tile_left, tile_top), (tile_right,
tile_top), (tile_right, tile_bottom), (tile_left, tile_bottom)])`. -/
def tilePoly (tr : TileRect) : SPoly :=
  mkPoly [((tr.left : ℚ), (tr.top : ℚ)), ((tr.right : ℚ), (tr.top : ℚ)),
          ((tr.right : ℚ), (tr.bottom : ℚ)), ((tr.left : ℚ), (tr.bottom : ℚ))]

/-- Membership of a pixel in a tile rectangle's half-open extent. -/
def TileRect.containsPix (tr : TileRect) (x y : ℕ) : Prop :=
  tr.left ≤ x ∧ x < tr.right ∧ tr.top ≤ y ∧ y < tr.bottom

instance (tr : TileRect) (x y : ℕ) : Decidable (tr.containsPix x y) := by
  unfold TileRect.containsPix
  infer_instance

/-! ### Annotation parsing (step 3 of both sources) -/

/-- Source (both files): `points = [(coords[i] * img_width, coords[i + 1] *
img_height) for i in range(0, len(coords), 2)]`.  The comprehension walks
`i = 0, 2, 4, ...` strictly below `len(coords)` and reads `coords[i]` and
`coords[i + 1]`; when `len(coords)` is odd the final step reads
`coords[len(coords)]`, an `IndexError`.  The recursion below consumes the
list two elements at a stride, which is the same access pattern: each
step yields `(coords[i]*W, coords[i+1]*H)` and a trailing lone element is
exactly the out-of-range `coords[i + 1]` access. -/
def buildPoints (W H : ℚ) : List ℚ → Except PErr (List Pt)
  | [] => .ok []
  | [_] => .error .indexErr
  | x :: y :: rest =>
    match buildPoints W H rest with
    | .error e => .error e
    | .ok ps => .ok ((x * W, y * H) :: ps)

/-- One line of `splitter.py`'s parse loop (lines 43-65).  `items` is the
token list of the line.  Results: `.ok none` = line skipped with a
diagnostic (too few tokens, or polygon still invalid after `buffer(0)`),
`.ok (some rec)` = record kept, `.error` = uncaught exception. -/
def parseLineS (env : Env) (W H : ℕ) (items : List String) : Except PErr (Option (String × SPoly)) :=
  if items.length < 6 then .ok none
  else
    match (items.drop 1).mapM env.parseFloat with
    | none => .error .valueErr
    | some coords =>
      match buildPoints (W : ℚ) (H : ℚ) coords with
      | .error e => .error e
      | .ok pts =>
        let poly := env.buffer0 (mkPoly pts)
        if env.isValid poly then .ok (some (items.headD "", poly))
        else .ok none

/-- One line of `split_annotations.py`'s parse loop (lines 41-50): same
token-count check, `float` map and point construction, but no `buffer(0)`
repair and no validity check — the polygon is appended directly. -/
def parseLineA (env : Env) (W H : ℕ) (items : List String) : Except PErr (Option (String × SPoly)) :=
  if items.length < 6 then .ok none
  else
    match (items.drop 1).mapM env.parseFloat with
    | none => .error .valueErr
    | some coords =>
      match buildPoints (W : ℚ) (H : ℚ) coords with
      | .error e => .error e
      | .ok pts => .ok (some (items.headD "", mkPoly pts))

/-- The `for line in f:` loop shared by both parsers, over a per-line
function `pl`: a skipped line (`.ok none`) continues with the remaining
lines, a kept record is appended, an error aborts the whole file. -/
def parseLoop (pl : List String → Except PErr (Option (String × SPoly))) :
    List (String × SPoly) → List (List String) → Except PErr (List (String × SPoly))
  | acc, [] => .ok acc
  | acc, l :: ls =>
    match pl l with
    | .error e => .error e
    | .ok none => parseLoop pl acc ls
    | .ok (some a) => parseLoop pl (acc ++ [a]) ls

/-- `splitter.py` lines 40-68: the whole `try: with open(label_path) ...
except FileNotFoundError:` block.  A missing file (`none`) is caught and
leaves `annotations = []`; any other exception propagates. -/
def parseFileS (env : Env) (W H : ℕ) (lbl : Option (List (List String))) :
    Except PErr (List (String × SPoly)) :=
  match lbl with
  | none => .ok []
  | some lines => parseLoop (parseLineS env W H) [] lines

/-- `split_annotations.py` lines 40-50: `with open(label_path)` with no
handler — a missing file raises `FileNotFoundError` uncaught. -/
def parseFileA (env : Env) (W H : ℕ) (lbl : Option (List (List String))) :
    Except PErr (List (String × SPoly)) :=
  match lbl with
  | none => .error .fnf
  | some lines => parseLoop (parseLineA env W H) [] lines

/-! ### Clipping (step 5 of both sources) -/

/-- The geometry-type dispatch shared verbatim by the clip loops of both
sources:

```
clipped_poly = polygon.intersection(tile_polygon)
if not clipped_poly.is_empty:
    if clipped_poly.geom_type == 'MultiPolygon':
        for subpoly in clipped_poly.geoms:
            shifted = _shift_polygon(subpoly, tile_left, tile_top)
            if not shifted.is_empty:
                clipped_annotations.append((class_id, shifted))
    elif clipped_poly.geom_type == 'Polygon':
        shifted = _shift_polygon(clipped_poly, tile_left, tile_top)
        if not shifted.is_empty:
            clipped_annotations.append((class_id, shifted))
```

Geometry types other than `Polygon`/`MultiPolygon` fall through both
branches and contribute nothing. -/
def clipDispatch (g : Geom) (l t : ℕ) (cls : String) : List (String × SPoly) :=
  if g.isEmptyG then []
  else
    match g with
    | .gmulti ps =>
      ps.filterMap (fun sub =>
        let s := shiftPoly sub (l : ℚ) (t : ℚ)
        if s.ring.isEmpty then none else some (cls, s))
    | .gpoly q =>
      let s := shiftPoly q (l : ℚ) (t : ℚ)
      if s.ring.isEmpty then [] else [(cls, s)]
    | .gother _ => []

/-- `splitter.py` lines 93-108: each record is re-repaired with
`buffer(0)` and skipped if still invalid, then intersected with the tile
polygon and dispatched. -/
def clipOneS (env : Env) (tp : SPoly) (l t : ℕ) (cls : String) (poly : SPoly) :
    List (String × SPoly) :=
  let p := env.buffer0 poly
  if env.isValid p then clipDispatch (env.intersect p tp) l t cls else []

/-- `split_annotations.py` lines 76-88: same loop without the `buffer(0)`
re-repair and validity skip. -/
def clipOneA (env : Env) (tp : SPoly) (l t : ℕ) (cls : String) (poly : SPoly) :
    List (String × SPoly) :=
  clipDispatch (env.intersect poly tp) l t cls

/-! ### Label serialization and output files (step 6 of both sources) -/

/-- Left-pad the decimal digits of `k` with zeros to width 6 (the
fractional part of Python `:.6f`). -/
def pad6 (k : ℕ) : String :=
  let d := toString k
  String.mk (List.replicate (6 - d.length) '0') ++ d

/-- Rounding to the nearest integer, halves upward: `⌊q + 1/2⌋`, computed
on the reduced fraction `q = num/den` as the floor division
`(2*num + den) fdiv (2*den)`. -/
def roundHalf (q : ℚ) : ℤ :=
  Int.fdiv (2 * q.num + (q.den : ℤ)) (2 * (q.den : ℤ))

/-- Model of Python `f"{q:.6f}"` on an exact rational: round to 6 decimal
places and print with exactly 6 fractional digits.  (Python rounds binary
doubles with ties-to-even; the model rounds the exact rational to
nearest, which agrees on every value the claims evaluate.) -/
def fmt6 (q : ℚ) : String :=
  let n : ℤ := roundHalf (q * 1000000)
  let sgn := if n < 0 then "-" else ""
  let m := n.natAbs
  sgn ++ toString (m / 1000000) ++ "." ++ pad6 (m % 1000000)

/-- One serialized label line, shared shape of both sources:
`lf.write(f"{cls_id} {coords_str}\n")` where `coords_str` joins, with
single spaces and over `coords[:-1]` (all exterior-ring vertices except
the ring-closing duplicate), the pair `f"{x/w:.6f} {y/h:.6f}"`; the
denominators `w, h` differ between the two sources and are passed in. -/
def labelLine (w h : ℚ) (cls : String) (p : SPoly) : String :=
  cls ++ " " ++
    String.intercalate " "
      (p.ring.dropLast.map (fun v => fmt6 (v.1 / w) ++ " " ++ fmt6 (v.2 / h))) ++
    "\n"

/-- `splitter.py` lines 115-127: the label-file content for one tile —
every kept fragment on its own line, normalized by the tile's ACTUAL
cropped extent `(tile_right - tile_left, tile_bottom - tile_top)`; no
fragments means an empty file. -/
def labelContentS (clipped : List (String × SPoly)) (tr : TileRect) : String :=
  String.join (clipped.map (fun a =>
    labelLine ((tr.right : ℚ) - (tr.left : ℚ)) ((tr.bottom : ℚ) - (tr.top : ℚ)) a.1 a.2))

/-- `split_annotations.py` lines 98-103: label content normalized by the
NOMINAL `tile_width`/`tile_height`. -/
def labelContentA (clipped : List (String × SPoly)) (tw th : ℕ) : String :=
  String.join (clipped.map (fun a => labelLine (tw : ℚ) (th : ℚ) a.1 a.2))

/-- Kind of an emitted file: tile raster or tile label. -/
inductive FKind where
  | imgF
  | lblF
deriving DecidableEq

/-- One output file.  Raster contents are outside the model (`content` of
an `imgF` is `""`); a label file's `content` is its full text. -/
structure OutFile where
  name : String
  kind : FKind
  content : String
deriving DecidableEq

/-- Source: `f"{base_name}_{(row_idx):02d}_{(col_idx):02d}"` — Python
`:02d` zero-pads to a minimum width of 2. -/
def pad2 (n : ℕ) : String :=
  if n < 10 then "0" ++ toString n else toString n

/-- `splitter.py` steps 5-6 for one tile: clip every record, then ALWAYS
emit the tile image and the tile label file (label text empty when no
fragment survived), names zero-padded. -/
def tileFilesS (env : Env) (anns : List (String × SPoly)) (base : String)
    (tr : TileRect) : List OutFile :=
  let tp := tilePoly tr
  let clipped := anns.flatMap (fun a => clipOneS env tp tr.left tr.top a.1 a.2)
  [⟨base ++ "_" ++ pad2 tr.row ++ "_" ++ pad2 tr.col ++ ".jpg", .imgF, ""⟩,
   ⟨base ++ "_" ++ pad2 tr.row ++ "_" ++ pad2 tr.col ++ ".txt", .lblF,
     labelContentS clipped tr⟩]

/-- `split_annotations.py` steps 5-6 for one tile: clip, then emit the
pair ONLY `if clipped_annotations:`, with unpadded `{row_idx}_{col_idx}`
names and nominal-size normalization. -/
def tileFilesA (env : Env) (anns : List (String × SPoly)) (base : String)
    (tw th : ℕ) (tr : TileRect) : List OutFile :=
  let tp := tilePoly tr
  let clipped := anns.flatMap (fun a => clipOneA env tp tr.left tr.top a.1 a.2)
  if clipped.isEmpty then []
  else
    [⟨base ++ "_" ++ toString tr.row ++ "_" ++ toString tr.col ++ ".jpg", .imgF, ""⟩,
     ⟨base ++ "_" ++ toString tr.row ++ "_" ++ toString tr.col ++ ".txt", .lblF,
       labelContentA clipped tw th⟩]

/-- `split_image_and_annotations` of `splitter.py` (lines 8-128), end to
end: parse the label file (missing file caught), then walk the grid in
row-major order emitting two files per tile.  An uncaught parse exception
aborts the whole image with no tile emitted. -/
def splitterRun (env : Env) (base : String) (lbl : Option (List (List String)))
    (W H tw th : ℕ) : Except PErr (List OutFile) :=
  match parseFileS env W H lbl with
  | .error e => .error e
  | .ok anns => .ok ((tilesList W H tw th).flatMap (tileFilesS env anns base))

/-- `split_image_and_annotations` of `split_annotations.py` (lines
7-103), end to end: parse (missing file raises), then walk the same grid
emitting files only for tiles with surviving fragments. -/
def splitAnnRun (env : Env) (base : String) (lbl : Option (List (List String)))
    (W H tw th : ℕ) : Except PErr (List OutFile) :=
  match parseFileA env W H lbl with
  | .error e => .error e
  | .ok anns => .ok ((tilesList W H tw th).flatMap (tileFilesA env anns base tw th))

/-! ### Arithmetic and list helpers -/

/-- Division bound: `a < (a / b + 1) * b` for positive `b`. -/
lemma lt_div_succ_mul (a b : ℕ) (hb : 0 < b) : a < (a / b + 1) * b := by
  calc a = b * (a / b) + a % b := (Nat.div_add_mod a b).symm
  _ < b * (a / b) + b := by have := Nat.mod_lt a hb; omega
  _ = (a / b + 1) * b := by ring

/-- The ceiling grid reaches past `a`: `a ≤ ceil(a/b) * b`. -/
lemma le_ceil_mul (a b : ℕ) (hb : 0 < b) : a ≤ ((a + b - 1) / b) * b := by
  have h1 : a + b - 1 < (a + b - 1) / b * b + b := by
    have h := lt_div_succ_mul (a + b - 1) b hb
    rwa [Nat.add_one_mul] at h
  have key : ∀ e : ℕ, a + b - 1 < e + b → a ≤ e := by
    intro e h
    omega
  exact key _ h1

/-- An in-range coordinate lands in an in-range grid index. -/
lemma div_lt_ceil (x a b : ℕ) (hb : 0 < b) (hx : x < a) : x / b < (a + b - 1) / b := by
  rw [Nat.div_lt_iff_lt_mul hb]
  exact lt_of_lt_of_le hx (le_ceil_mul a b hb)

/-- Length of a row-major double loop. -/
lemma flat_grid_length {α : Type} (n m : ℕ) (f : ℕ → ℕ → α) :
    ((List.range n).flatMap (fun i => (List.range m).map (f i))).length = n * m := by
  induction n with
  | zero => simp
  | succ k ih =>
    rw [List.range_succ, List.flatMap_append]
    simp [ih, Nat.succ_mul]

/-- Indexing a row-major double loop at `r * m + c` yields `f r c`. -/
lemma flat_grid_getElem {α : Type} (n m : ℕ) (f : ℕ → ℕ → α) (r c : ℕ)
    (hr : r < n) (hc : c < m) :
    ((List.range n).flatMap (fun i => (List.range m).map (f i)))[r * m + c]? = some (f r c) := by
  induction n with
  | zero => omega
  | succ k ih =>
    rw [List.range_succ, List.flatMap_append]
    rcases Nat.lt_succ_iff_lt_or_eq.mp hr with h | h
    · have hlen : r * m + c <
          ((List.range k).flatMap fun i => List.map (f i) (List.range m)).length := by
        rw [flat_grid_length]
        calc r * m + c < r * m + m := Nat.add_lt_add_left hc _
        _ = (r + 1) * m := by ring
        _ ≤ k * m := Nat.mul_le_mul_right m h
      rw [List.getElem?_append_left hlen]
      exact ih h
    · subst h
      rw [List.getElem?_append_right]
      · rw [flat_grid_length]
        simp only [List.flatMap_cons, List.flatMap_nil, List.append_nil]
        have hsub : r * m + c - r * m = c := by omega
        rw [hsub, List.getElem?_map, List.getElem?_range hc]
        rfl
      · rw [flat_grid_length]
        omega

/-- Membership of every grid cell in a row-major double loop. -/
lemma flat_grid_mem {α : Type} (n m : ℕ) (f : ℕ → ℕ → α) (r c : ℕ)
    (hr : r < n) (hc : c < m) :
    f r c ∈ (List.range n).flatMap (fun i => (List.range m).map (f i)) := by
  rw [List.mem_flatMap]
  exact ⟨r, List.mem_range.mpr hr, List.mem_map.mpr ⟨c, List.mem_range.mpr hc, rfl⟩⟩

/-- Every element of the grid list is a `tileAt` with in-range indices. -/
lemma mem_tilesList_elim (W H tw th : ℕ) (tr : TileRect) (h : tr ∈ tilesList W H tw th) :
    ∃ r c, r < rowCount H th ∧ c < colCount W tw ∧ tr = tileAt W H tw th r c := by
  unfold tilesList at h
  rw [List.mem_flatMap] at h
  obtain ⟨r, hr, hmem⟩ := h
  rw [List.mem_map] at hmem
  obtain ⟨c, hc, rfl⟩ := hmem
  exact ⟨r, c, List.mem_range.mp hr, List.mem_range.mp hc, rfl⟩

/-- C1: for every image of width `W` and height `H` and positive tile size
`tw × th`, the engine generates exactly `ceil(H/th)` rows and `ceil(W/tw)`
columns of tiles, iterated in row-major order — the tile of row `r`,
column `c` sits at list position `r * col_count + c` — with each tile's
rectangle `left = c*tw`, `top = r*th`, `right = min(left+tw, W)`,
`bottom = min(top+th, H)`; every tile's pixel extent lies inside
`[0,W) × [0,H)`, and every pixel of `[0,W) × [0,H)` lies in exactly one
grid cell (no overlap, no gap). -/
theorem C1_grid_row_major_partition (W H tw th : ℕ) (htw : 0 < tw) (hth : 0 < th) :
    (tilesList W H tw th).length = rowCount H th * colCount W tw ∧
    (∀ r c : ℕ, r < rowCount H th → c < colCount W tw →
      (tilesList W H tw th)[r * colCount W tw + c]? =
        some ⟨r, c, c * tw, r * th, min (c * tw + tw) W, min (r * th + th) H⟩) ∧
    (∀ tr ∈ tilesList W H tw th, ∀ x y : ℕ, tr.containsPix x y → x < W ∧ y < H) ∧
    (∀ x y : ℕ, x < W → y < H →
      ∃! rc : ℕ × ℕ, rc.1 < rowCount H th ∧ rc.2 < colCount W tw ∧
        (tileAt W H tw th rc.1 rc.2).containsPix x y) := by
  refine ⟨flat_grid_length _ _ _, ?_, ?_, ?_⟩
  · intro r c hr hc
    exact flat_grid_getElem _ _ _ r c hr hc
  · intro tr htr x y hpix
    obtain ⟨r, c, _, _, rfl⟩ := mem_tilesList_elim W H tw th tr htr
    obtain ⟨_, hx, _, hy⟩ := hpix
    constructor
    · exact lt_of_lt_of_le hx (min_le_right _ _)
    · exact lt_of_lt_of_le hy (min_le_right _ _)
  · intro x y hx hy
    refine ⟨(y / th, x / tw), ⟨?_, ?_, ?_, ?_, ?_, ?_⟩, ?_⟩
    · exact div_lt_ceil y H th hth hy
    · exact div_lt_ceil x W tw htw hx
    · exact Nat.div_mul_le_self x tw
    · refine lt_min ?_ hx
      have h := lt_div_succ_mul x tw htw
      rwa [Nat.add_one_mul] at h
    · exact Nat.div_mul_le_self y th
    · refine lt_min ?_ hy
      have h := lt_div_succ_mul y th hth
      rwa [Nat.add_one_mul] at h
    · rintro ⟨r, c⟩ ⟨_, _, hcl, hcr, hrt, hrb⟩
      simp only [tileAt] at hcl hcr hrt hrb
      have hc : x / tw = c := by
        have h1 : c * tw ≤ x := hcl
        have h2 : x < (c + 1) * tw := by
          have := lt_of_lt_of_le hcr (min_le_left _ _)
          calc x < c * tw + tw := this
          _ = (c + 1) * tw := by ring
        exact Nat.div_eq_of_lt_le h1 h2
      have hr : y / th = r := by
        have h1 : r * th ≤ y := hrt
        have h2 : y < (r + 1) * th := by
          have := lt_of_lt_of_le hrb (min_le_left _ _)
          calc y < r * th + th := this
          _ = (r + 1) * th := by ring
        exact Nat.div_eq_of_lt_le h1 h2
      simp [Prod.ext_iff, hr, hc]

/-- Witness for C1: the spec's worked example, a 100×100 image with 64×64
tiles; the tile at row 1, col 1 sits at row-major position
`1 * col_count + 1` with rectangle `64,64 → 100,100`. -/
theorem C1_grid_row_major_partition_witness :
    ((0 : ℕ) < 64 ∧ (0 : ℕ) < 64) ∧
      (tilesList 100 100 64 64)[1 * colCount 100 64 + 1]? =
        some ⟨1, 1, 1 * 64, 1 * 64, min (1 * 64 + 64) 100, min (1 * 64 + 64) 100⟩ :=
  ⟨⟨by decide, by decide⟩,
    (C1_grid_row_major_partition 100 100 64 64 (by decide) (by decide)).2.1 1 1
      (by decide) (by decide)⟩

/-- A concrete instantiation of the external geometry capabilities, used
to evaluate the pipelines on closed inputs: every token parses to `1/2`,
`buffer(0)` is the identity, everything is valid, every intersection is
an empty degenerate geometry. -/
def envC : Env :=
  { parseFloat := fun _ => some (1 / 2), buffer0 := id, isValid := fun _ => true,
    intersect := fun _ _ => Geom.gother true }

/-- A flat map whose pieces all have length `k` has length `k * length`. -/
lemma flatMap_const_length {α β : Type} (l : List α) (g : α → List β) (k : ℕ)
    (h : ∀ a ∈ l, (g a).length = k) : (l.flatMap g).length = k * l.length := by
  induction l with
  | nil => simp
  | cons a tl ih =>
    rw [List.flatMap_cons, List.length_append, h a (by simp),
      ih (fun b hb => h b (by simp [hb]))]
    simp [List.length_cons, Nat.mul_succ]
    exact Nat.add_comm k (k * tl.length)

/-- A completed `splitter.py` run emits exactly two files per grid cell. -/
lemma splitterRun_ok_length (env : Env) (base : String)
    (lbl : Option (List (List String))) (W H tw th : ℕ) (fs : List OutFile)
    (hrun : splitterRun env base lbl W H tw th = .ok fs) :
    fs.length = 2 * (rowCount H th * colCount W tw) := by
  unfold splitterRun at hrun
  cases hp : parseFileS env W H lbl with
  | error e => rw [hp] at hrun; cases hrun
  | ok anns =>
    rw [hp] at hrun
    cases hrun
    rw [flatMap_const_length _ _ 2 (fun tr _ => by simp [tileFilesS])]
    rw [tilesList, flat_grid_length]

/-- C2: whenever `splitter.py` completes an image (its parse loop raises
no exception), it emits both a tile image file and a tile label file for
every grid cell — `2 * ceil(H/th) * ceil(W/tw)` files in total — and a
cell for which zero fragments survive still gets its label file, with
empty content. -/
theorem C2_always_writes_both_files (env : Env) (base : String)
    (lbl : Option (List (List String))) (W H tw th : ℕ) (fs : List OutFile)
    (hrun : splitterRun env base lbl W H tw th = .ok fs) :
    fs.length = 2 * (rowCount H th * colCount W tw) ∧
    (∀ r c : ℕ, r < rowCount H th → c < colCount W tw →
      (⟨base ++ "_" ++ pad2 r ++ "_" ++ pad2 c ++ ".jpg", .imgF, ""⟩ : OutFile) ∈ fs ∧
      ∃ f ∈ fs, f.name = base ++ "_" ++ pad2 r ++ "_" ++ pad2 c ++ ".txt" ∧
        f.kind = .lblF) ∧
    (∀ anns, parseFileS env W H lbl = .ok anns →
      ∀ r c : ℕ, r < rowCount H th → c < colCount W tw →
        anns.flatMap (fun a =>
            clipOneS env (tilePoly (tileAt W H tw th r c))
              (tileAt W H tw th r c).left (tileAt W H tw th r c).top a.1 a.2) = [] →
        (⟨base ++ "_" ++ pad2 r ++ "_" ++ pad2 c ++ ".txt", .lblF, ""⟩ : OutFile) ∈ fs) := by
  refine ⟨splitterRun_ok_length env base lbl W H tw th fs hrun, ?_, ?_⟩
  · intro r c hr hc
    unfold splitterRun at hrun
    cases hp : parseFileS env W H lbl with
    | error e => rw [hp] at hrun; cases hrun
    | ok anns =>
      rw [hp] at hrun
      cases hrun
      have hmem : tileAt W H tw th r c ∈ tilesList W H tw th :=
        flat_grid_mem _ _ _ r c hr hc
      have hsub : ∀ f ∈ tileFilesS env anns base (tileAt W H tw th r c),
          f ∈ (tilesList W H tw th).flatMap (tileFilesS env anns base) :=
        fun f hf => List.mem_flatMap.mpr ⟨tileAt W H tw th r c, hmem, hf⟩
      constructor
      · apply hsub
        simp [tileFilesS, tileAt]
      · have hin : (⟨base ++ "_" ++ pad2 r ++ "_" ++ pad2 c ++ ".txt", FKind.lblF,
            labelContentS
              (anns.flatMap fun a =>
                clipOneS env (tilePoly (tileAt W H tw th r c)) (c * tw) (r * th) a.1 a.2)
              (tileAt W H tw th r c)⟩ : OutFile) ∈
            tileFilesS env anns base (tileAt W H tw th r c) := by
          simp [tileFilesS, tileAt]
        exact ⟨_, hsub _ hin, rfl, rfl⟩
  · intro anns hp r c hr hc hempty
    unfold splitterRun at hrun
    rw [hp] at hrun
    cases hrun
    have hmem : tileAt W H tw th r c ∈ tilesList W H tw th :=
      flat_grid_mem _ _ _ r c hr hc
    refine List.mem_flatMap.mpr ⟨tileAt W H tw th r c, hmem, ?_⟩
    simp only [tileFilesS]
    rw [hempty]
    simp [labelContentS, tileAt]
    rfl

/-- Witness for C2: a 10×10 image with 10×10 tiles and an empty label
file — one grid cell, one image file and one empty label file, 2 files
in total. -/
theorem C2_always_writes_both_files_witness :
    splitterRun envC "1" (some []) 10 10 10 10 =
      .ok [⟨"1_00_00.jpg", .imgF, ""⟩, ⟨"1_00_00.txt", .lblF, ""⟩] ∧
    ([⟨"1_00_00.jpg", .imgF, ""⟩, ⟨"1_00_00.txt", .lblF, ""⟩] : List OutFile).length =
      2 * (rowCount 10 10 * colCount 10 10) := by
  have h : splitterRun envC "1" (some []) 10 10 10 10 =
      .ok [⟨"1_00_00.jpg", .imgF, ""⟩, ⟨"1_00_00.txt", .lblF, ""⟩] := by rfl
  exact ⟨h, (C2_always_writes_both_files envC "1" (some []) 10 10 10 10 _ h).1⟩

/-! ### C3: serialization of kept fragments -/

/-- C3: the label line `splitter.py` writes for a kept fragment divides
each tile-local vertex coordinate by the tile's ACTUAL cropped extent
`(right - left, bottom - top)` — the fields of the tile rectangle, not
the nominal tile size — formats with fixed 6-decimal precision (`fmt6`),
and serializes all exterior-ring vertices except the last one; for a
closed ring that dropped vertex is exactly the ring-closing duplicate of
the first vertex. -/
theorem C3_normalize_by_actual_extent (cls : String) (p : SPoly) (tr : TileRect)
    (hne : p.ring ≠ [])
    (hclosed : p.ring.getLast? = p.ring.head?) :
    labelContentS [(cls, p)] tr =
      cls ++ " " ++
        String.intercalate " "
          (p.ring.dropLast.map (fun v =>
            fmt6 (v.1 / ((tr.right : ℚ) - (tr.left : ℚ))) ++ " " ++
            fmt6 (v.2 / ((tr.bottom : ℚ) - (tr.top : ℚ))))) ++ "\n" ∧
    p.ring = p.ring.dropLast ++ [p.ring.headD (0, 0)] ∧
    p.ring.dropLast.length = p.ring.length - 1 := by
  refine ⟨?_, ?_, List.length_dropLast p.ring⟩
  · simp [labelContentS, labelLine, String.join]
  · have key : ∀ (l : List Pt) (h : l ≠ []), l.getLast? = l.head? →
        l.getLast h = l.headD (0, 0) := by
      intro l h hcl
      obtain ⟨a, tl, rfl⟩ := List.exists_cons_of_ne_nil h
      have h1 : (a :: tl).getLast? = some ((a :: tl).getLast (by simp)) :=
        List.getLast?_eq_getLast _ _
      simp only [List.head?_cons, List.headD_cons] at hcl ⊢
      rw [hcl] at h1
      exact Option.some_injective _ h1.symm
    rw [← key p.ring hne hclosed]
    exact (List.dropLast_append_getLast hne).symm

/-- Witness for C3: the spec's worked fragment `[(10,10),(64,10),(64,64),
(10,64)]` (closed ring) serialized for tile `(0,0)` of the 100×100 image
at 64×64 tiles; the theorem instance plus a literal evaluation of the
resulting line. -/
theorem C3_normalize_by_actual_extent_witness :
    (⟨[(10, 10), (64, 10), (64, 64), (10, 64), (10, 10)]⟩ : SPoly).ring.dropLast.length =
      (⟨[(10, 10), (64, 10), (64, 64), (10, 64), (10, 10)]⟩ : SPoly).ring.length - 1 ∧
    labelContentS [("0", ⟨[(10, 10), (64, 10), (64, 64), (10, 64), (10, 10)]⟩)]
        (tileAt 100 100 64 64 0 0) =
      "0 0.156250 0.156250 1.000000 0.156250 1.000000 1.000000 0.156250 1.000000\n" := by
  constructor
  · exact (C3_normalize_by_actual_extent "0"
      ⟨[(10, 10), (64, 10), (64, 64), (10, 64), (10, 10)]⟩
      (tileAt 100 100 64 64 0 0) (by decide) (by decide)).2.2
  · have f1 : fmt6 ((5 : ℚ) / 32) = "0.156250" := by
      have h : ((5 : ℚ) / 32) * 1000000 = 156250 := by norm_num
      unfold fmt6
      rw [h]
      decide
    have f2 : fmt6 (1 : ℚ) = "1.000000" := by
      have h : (1 : ℚ) * 1000000 = 1000000 := by norm_num
      unfold fmt6
      rw [h]
      decide
    simp only [labelContentS, labelLine, tileAt]
    norm_num
    simp only [f1, f2]
    decide

/-! ### C4 and C9: the token-count guard and the IndexError -/

/-- C4: contrary to the spec sentence, a 6-token line (class id plus 5
coordinate tokens — fewer than 7 tokens) is NOT skipped: the guard in
`splitter.py` line 45 is `len(items) < 6`, although its own comment says
"Minimum of 3 points + class_id" (which is 7 tokens), so the 6-token line
passes the guard and the point comprehension raises an uncaught
IndexError that aborts the whole file.  A 5-token line is skipped with a
diagnostic as specified. -/
theorem C4_six_token_line_not_skipped :
    parseLineS envC 100 100 ["0", "0.1", "0.2", "0.3", "0.4", "0.5"] =
      .error PErr.indexErr ∧
    parseLineS envC 100 100 ["0", "0.1", "0.2", "0.3", "0.4"] = .ok none ∧
    parseFileS envC 100 100 (some [["0", "0.1", "0.2", "0.3", "0.4", "0.5"]]) =
      .error PErr.indexErr :=
  ⟨rfl, rfl, rfl⟩

/-! ### C5: non-numeric coordinate tokens -/

/-- A second concrete environment whose `float` parser rejects the token
`"x"` (models Python `float` raising ValueError on it). -/
def envB : Env :=
  { parseFloat := fun s => if s = "x" then none else some (1 / 2), buffer0 := id,
    isValid := fun _ => true, intersect := fun _ _ => Geom.gother true }

/-- C5 counterexample: a label file whose first line carries the
non-numeric coordinate token `"x"` and whose second line is well-formed.
`splitter.py` aborts the whole file with the uncaught ValueError — it
does not skip the line and continue — although the second line alone
parses fine. -/
theorem C5_counterexample_nonnumeric_aborts_file :
    parseFileS envB 100 100
        (some [["0", "x", "0.2", "0.3", "0.4", "0.5", "0.6"],
               ["1", "0.1", "0.2", "0.3", "0.4", "0.5", "0.6"]]) =
      .error PErr.valueErr ∧
    (parseFileS envB 100 100
        (some [["1", "0.1", "0.2", "0.3", "0.4", "0.5", "0.6"]])).isOk = true :=
  ⟨rfl, rfl⟩

/-- C5 amended: a non-numeric coordinate token in a line that passes the
token-count guard raises an uncaught ValueError (only FileNotFoundError
is caught), aborting the entire label file and the whole image run — it
is not a per-line skip. -/
theorem C5_nonnumeric_token_aborts_file (env : Env) (W H : ℕ) (items : List String)
    (hlen : 6 ≤ items.length)
    (hbad : (items.drop 1).mapM env.parseFloat = none) :
    parseLineS env W H items = .error PErr.valueErr ∧
    (∀ acc rest, parseLoop (parseLineS env W H) acc (items :: rest) =
      .error PErr.valueErr) ∧
    (∀ base tw th rest,
      splitterRun env base (some (items :: rest)) W H tw th = .error PErr.valueErr) := by
  have h1 : parseLineS env W H items = .error PErr.valueErr := by
    unfold parseLineS
    rw [if_neg (by omega), hbad]
  have h2 : ∀ acc rest, parseLoop (parseLineS env W H) acc (items :: rest) =
      .error PErr.valueErr := by
    intro acc rest
    unfold parseLoop
    rw [h1]
  refine ⟨h1, h2, ?_⟩
  intro base tw th rest
  have h3 : parseFileS env W H (some (items :: rest)) = .error PErr.valueErr :=
    h2 [] rest
  unfold splitterRun
  rw [h3]

/-- Witness for C5's amended statement, at the counterexample's bad line. -/
theorem C5_nonnumeric_token_aborts_file_witness :
    parseLineS envB 100 100 ["0", "x", "0.2", "0.3", "0.4", "0.5", "0.6"] =
      .error PErr.valueErr :=
  (C5_nonnumeric_token_aborts_file envB 100 100
    ["0", "x", "0.2", "0.3", "0.4", "0.5", "0.6"] (by decide) (by rfl)).1

/-! ### C6: missing label file -/

/-- C6: a missing label file is caught by `splitter.py` and treated as
zero annotations, not an error: the run still completes, emits its two
files per grid cell, and every label file it writes is empty. -/
theorem C6_missing_label_still_tiles (env : Env) (base : String) (W H tw th : ℕ) :
    parseFileS env W H none = .ok [] ∧
    splitterRun env base none W H tw th =
      .ok ((tilesList W H tw th).flatMap (tileFilesS env [] base)) ∧
    (∀ fs, splitterRun env base none W H tw th = .ok fs →
      fs.length = 2 * (rowCount H th * colCount W tw) ∧
      ∀ f ∈ fs, f.kind = FKind.lblF → f.content = "") := by
  refine ⟨rfl, rfl, ?_⟩
  intro fs hfs
  refine ⟨splitterRun_ok_length _ _ _ _ _ _ _ _ hfs, ?_⟩
  have hfs2 : fs = (tilesList W H tw th).flatMap (tileFilesS env [] base) := by
    have h0 : splitterRun env base none W H tw th =
        .ok ((tilesList W H tw th).flatMap (tileFilesS env [] base)) := rfl
    rw [h0] at hfs
    exact (Except.ok.injEq _ _ ▸ hfs).symm
  subst hfs2
  intro f hf hk
  obtain ⟨tr, _, hfmem⟩ := List.mem_flatMap.mp hf
  simp only [tileFilesS, List.flatMap_nil, List.mem_cons, List.mem_singleton] at hfmem
  rcases hfmem with h | h | h
  · rw [h] at hk
    cases hk
  · rw [h]
    rfl
  · cases h

/-- Witness for C6 at a concrete missing-label run. -/
theorem C6_missing_label_still_tiles_witness :
    splitterRun envC "img" none 10 10 10 10 =
      .ok ((tilesList 10 10 10 10).flatMap (tileFilesS envC [] "img")) :=
  (C6_missing_label_still_tiles envC "img" 10 10 10 10).2.1

/-! ### C7: geometry-type dispatch of the clip loop -/

/-- When every constituent polygon of a MultiPolygon is nonempty, the
per-subpolygon emptiness filter of the clip loop keeps all of them, in
order, each shifted independently. -/
lemma filterMap_shift_eq_map (ps : List SPoly) (l t : ℕ) (cls : String)
    (h : ∀ sub ∈ ps, sub.ring ≠ []) :
    ps.filterMap (fun sub =>
      let s := shiftPoly sub (l : ℚ) (t : ℚ)
      if s.ring.isEmpty then none else some (cls, s)) =
    ps.map (fun sub => (cls, shiftPoly sub (l : ℚ) (t : ℚ))) := by
  induction ps with
  | nil => rfl
  | cons a tl ih =>
    have ha : (shiftPoly a (l : ℚ) (t : ℚ)).ring ≠ [] := by
      simp only [shiftPoly]
      simp
      exact h a (by simp)
    simp [List.filterMap_cons, ha]
    simpa using ih (fun b hb => h b (List.mem_cons_of_mem a hb))

/-- C7: for every record the clip loop of `splitter.py` intersects the
(repaired, valid) polygon with the tile polygon and dispatches on the
resulting geometry type: an empty intersection contributes nothing; a
single nonempty polygon is shifted by `(-left, -top)` and kept as one
record; a nonempty MultiPolygon has each constituent polygon shifted
independently and emitted as a separate record with the same class id;
any other geometry type (degenerate line/point/collection) is
discarded. -/
theorem C7_clip_dispatch_cases (env : Env) (tp : SPoly) (l t : ℕ) (cls : String)
    (poly : SPoly) (hval : env.isValid (env.buffer0 poly) = true) :
    ((env.intersect (env.buffer0 poly) tp).isEmptyG = true →
      clipOneS env tp l t cls poly = []) ∧
    (∀ q, env.intersect (env.buffer0 poly) tp = Geom.gpoly q → q.ring ≠ [] →
      clipOneS env tp l t cls poly = [(cls, shiftPoly q (l : ℚ) (t : ℚ))]) ∧
    (∀ ps, env.intersect (env.buffer0 poly) tp = Geom.gmulti ps →
      (∀ sub ∈ ps, sub.ring ≠ []) → ps ≠ [] →
      clipOneS env tp l t cls poly =
        ps.map (fun sub => (cls, shiftPoly sub (l : ℚ) (t : ℚ)))) ∧
    (∀ b, env.intersect (env.buffer0 poly) tp = Geom.gother b →
      clipOneS env tp l t cls poly = []) := by
  have hc : clipOneS env tp l t cls poly =
      clipDispatch (env.intersect (env.buffer0 poly) tp) l t cls := by
    simp [clipOneS, hval]
  refine ⟨?_, ?_, ?_, ?_⟩
  · intro hemp
    rw [hc]
    unfold clipDispatch
    rw [hemp]
    rfl
  · intro q hq hne
    rw [hc, hq]
    unfold clipDispatch
    have he : (Geom.gpoly q).isEmptyG = false := by
      simpa [Geom.isEmptyG] using hne
    rw [he]
    have hs : (shiftPoly q (l : ℚ) (t : ℚ)).ring.isEmpty = false := by
      simp only [shiftPoly]
      simp
      exact hne
    simp [hs]
  · intro ps hps hall hne
    rw [hc, hps]
    unfold clipDispatch
    have he : (Geom.gmulti ps).isEmptyG = false := by
      simpa [Geom.isEmptyG] using hne
    rw [he]
    simpa using filterMap_shift_eq_map ps l t cls hall
  · intro b hb
    rw [hc, hb]
    cases b <;> rfl

/-- A third concrete environment whose intersection always returns a
two-piece MultiPolygon. -/
def envD : Env :=
  { parseFloat := fun _ => some (1 / 2), buffer0 := id, isValid := fun _ => true,
    intersect := fun _ _ =>
      Geom.gmulti [⟨[(0, 0), (1, 0), (0, 1), (0, 0)]⟩,
                   ⟨[(2, 2), (3, 2), (2, 3), (2, 2)]⟩] }

/-- Witness for C7: with a MultiPolygon intersection of two nonempty
pieces, the clip step emits two records with the same class id. -/
theorem C7_clip_dispatch_cases_witness :
    clipOneS envD (tilePoly (tileAt 4 4 4 4 0 0)) 0 0 "7"
        ⟨[(0, 0), (1, 0), (0, 1), (0, 0)]⟩ =
      ([⟨[(0, 0), (1, 0), (0, 1), (0, 0)]⟩, ⟨[(2, 2), (3, 2), (2, 3), (2, 2)]⟩] :
          List SPoly).map
        (fun sub => ("7", shiftPoly sub ((0 : ℕ) : ℚ) ((0 : ℕ) : ℚ))) :=
  (C7_clip_dispatch_cases envD (tilePoly (tileAt 4 4 4 4 0 0)) 0 0 "7"
    ⟨[(0, 0), (1, 0), (0, 1), (0, 0)]⟩ rfl).2.2.1 _ rfl (by decide) (by simp)

/-! ### C8: load-time repair and drop -/

/-- C8: a line that survives the token-count guard has its polygon passed
through `buffer(0)` at load time; if the result is still invalid the
record is dropped with a diagnostic and parsing continues with the
remaining lines — and since parsing completes before the tile loops
start, the drop happens before any tiling: the whole run on the file with
the bad line equals the run on the file without it. -/
theorem C8_invalid_after_repair_dropped (env : Env) (W H : ℕ) (items : List String)
    (coords : List ℚ) (pts : List Pt)
    (hlen : 6 ≤ items.length)
    (hfloats : (items.drop 1).mapM env.parseFloat = some coords)
    (hpts : buildPoints (W : ℚ) (H : ℚ) coords = .ok pts)
    (hinv : env.isValid (env.buffer0 (mkPoly pts)) = false) :
    parseLineS env W H items = .ok none ∧
    (∀ acc rest, parseLoop (parseLineS env W H) acc (items :: rest) =
      parseLoop (parseLineS env W H) acc rest) ∧
    (∀ base tw th rest,
      splitterRun env base (some (items :: rest)) W H tw th =
        splitterRun env base (some rest) W H tw th) := by
  have h1 : parseLineS env W H items = .ok none := by
    unfold parseLineS
    rw [if_neg (by omega)]
    simp only [hfloats, hpts]
    simp [hinv]
  have h2 : ∀ acc rest, parseLoop (parseLineS env W H) acc (items :: rest) =
      parseLoop (parseLineS env W H) acc rest := by
    intro acc rest
    conv_lhs => rw [parseLoop]
    rw [h1]
  refine ⟨h1, h2, ?_⟩
  intro base tw th rest
  have h3 : parseFileS env W H (some (items :: rest)) =
      parseFileS env W H (some rest) := h2 [] rest
  unfold splitterRun
  rw [h3]

/-- A fourth concrete environment in which every polygon stays invalid
after `buffer(0)`. -/
def envE : Env :=
  { parseFloat := fun _ => some (1 / 2), buffer0 := id, isValid := fun _ => false,
    intersect := fun _ _ => Geom.gother true }

/-- Witness for C8: a well-formed 7-token line whose polygon remains
invalid after repair is skipped (`.ok none`). -/
theorem C8_invalid_after_repair_dropped_witness :
    parseLineS envE 100 100 ["0", "a", "b", "c", "d", "e", "f"] = .ok none :=
  (C8_invalid_after_repair_dropped envE 100 100 ["0", "a", "b", "c", "d", "e", "f"]
    _ _ (by decide) rfl rfl rfl).1

/-! ### C9: odd coordinate count -/

/-- A successful `Option`-monadic map preserves length. -/
lemma mapM_some_length {α β : Type} (f : α → Option β) (l : List α) :
    ∀ l2 : List β, l.mapM f = some l2 → l2.length = l.length := by
  induction l with
  | nil =>
    intro l2 h
    simp only [List.mapM_nil, pure, Option.some.injEq] at h
    simp [← h]
  | cons a tl ih =>
    intro l2 h
    rw [List.mapM_cons] at h
    cases hfa : f a with
    | none => rw [hfa] at h; simp at h
    | some b =>
      rw [hfa] at h
      cases hmt : tl.mapM f with
      | none => rw [hmt] at h; simp at h
      | some bs =>
        rw [hmt] at h
        simp only [Option.bind_some, Option.pure_def, Option.bind_eq_bind,
          Option.some_bind, Option.some.injEq] at h
        rw [← h]
        simp [ih bs hmt]

/-- The point comprehension fails with IndexError on every odd-length
coordinate list: it pairs elements two at a stride and the lone trailing
element triggers the out-of-range `coords[i + 1]` access. -/
lemma buildPoints_odd (W H : ℚ) : (coords : List ℚ) → coords.length % 2 = 1 →
    buildPoints W H coords = .error PErr.indexErr
  | [], h => by simp at h
  | [_], _ => rfl
  | x :: y :: rest, h => by
    have ih := buildPoints_odd W H rest (by
      have : rest.length % 2 = 1 := by
        simp only [List.length_cons] at h
        omega
      exact this)
    unfold buildPoints
    rw [ih]

/-- C9: a label line whose coordinate token count is odd (and, having
passed the `len(items) < 6` guard, at least 5) makes the point
comprehension index one past the end of the coordinate list: the
uncaught IndexError aborts the parse loop and the entire image run,
instead of the line being skipped. -/
theorem C9_odd_coordinate_count_crashes (env : Env) (W H : ℕ) (items : List String)
    (coords : List ℚ)
    (hlen : 6 ≤ items.length)
    (hfloats : (items.drop 1).mapM env.parseFloat = some coords)
    (hodd : coords.length % 2 = 1) :
    5 ≤ coords.length ∧
    parseLineS env W H items = .error PErr.indexErr ∧
    (∀ acc rest, parseLoop (parseLineS env W H) acc (items :: rest) =
      .error PErr.indexErr) ∧
    (∀ base tw th rest,
      splitterRun env base (some (items :: rest)) W H tw th =
        .error PErr.indexErr) := by
  have hclen : coords.length = items.length - 1 := by
    rw [mapM_some_length env.parseFloat (items.drop 1) coords hfloats]
    simp
  have h1 : parseLineS env W H items = .error PErr.indexErr := by
    unfold parseLineS
    rw [if_neg (by omega)]
    simp only [hfloats, buildPoints_odd (W : ℚ) (H : ℚ) coords hodd]
  have h2 : ∀ acc rest, parseLoop (parseLineS env W H) acc (items :: rest) =
      .error PErr.indexErr := by
    intro acc rest
    conv_lhs => rw [parseLoop]
    rw [h1]
  refine ⟨by omega, h1, h2, ?_⟩
  intro base tw th rest
  have h3 : parseFileS env W H (some (items :: rest)) = .error PErr.indexErr :=
    h2 [] rest
  unfold splitterRun
  rw [h3]

/-- Witness for C9: a 6-token line (5 coordinate tokens) crashes the
whole file. -/
theorem C9_odd_coordinate_count_crashes_witness :
    parseLineS envC 100 100 ["0", "a", "b", "c", "d", "e"] = .error PErr.indexErr :=
  (C9_odd_coordinate_count_crashes envC 100 100 ["0", "a", "b", "c", "d", "e"]
    _ (by decide) rfl (by rfl)).2.1

/-! ### C10: the two implementations are not equivalent -/

/-- C10 counterexample: already at a 10×10 image with 10×10 tiles and an
empty label file the two functions disagree: `splitter.py` writes the
tile image plus an empty tile label with zero-padded names, while
`split_annotations.py` — whose writes sit inside
`if clipped_annotations:` — writes nothing at all. -/
theorem C10_counterexample_outputs_differ :
    splitterRun envC "1" (some []) 10 10 10 10 =
      .ok [⟨"1_00_00.jpg", FKind.imgF, ""⟩, ⟨"1_00_00.txt", FKind.lblF, ""⟩] ∧
    splitAnnRun envC "1" (some []) 10 10 10 10 = .ok [] ∧
    splitterRun envC "1" (some []) 10 10 10 10 ≠
      splitAnnRun envC "1" (some []) 10 10 10 10 := by
  have h1 : splitterRun envC "1" (some []) 10 10 10 10 =
      .ok [⟨"1_00_00.jpg", FKind.imgF, ""⟩, ⟨"1_00_00.txt", FKind.lblF, ""⟩] := rfl
  have h2 : splitAnnRun envC "1" (some []) 10 10 10 10 = .ok [] := rfl
  refine ⟨h1, h2, ?_⟩
  rw [h1, h2]
  simp

/-- C10 amended: the two `split_image_and_annotations` functions are not
output-equivalent.  On a missing label file `split_annotations.py`
raises FileNotFoundError while `splitter.py` completes; with an
annotation-free label file `split_annotations.py` writes no file at all
while `splitter.py` writes two files (image + empty label) per grid
cell; the file names also differ (zero-padded vs unpadded row/col), and
label normalization divides by the actual extent in `splitter.py` but by
the nominal tile size in `split_annotations.py`. -/
theorem C10_amended_not_equivalent (env : Env) (base : String) (W H tw th : ℕ) :
    splitAnnRun env base none W H tw th = .error PErr.fnf ∧
    splitterRun env base none W H tw th =
      .ok ((tilesList W H tw th).flatMap (tileFilesS env [] base)) ∧
    splitAnnRun env base (some []) W H tw th = .ok [] ∧
    (∀ fs, splitterRun env base (some []) W H tw th = .ok fs →
      fs.length = 2 * (rowCount H th * colCount W tw)) := by
  refine ⟨rfl, rfl, ?_, ?_⟩
  · have hnil : ∀ L : List TileRect, L.flatMap (tileFilesA env [] base tw th) = [] := by
      intro L
      induction L with
      | nil => rfl
      | cons a tl ih =>
        rw [List.flatMap_cons, ih]
        rfl
    unfold splitAnnRun
    show Except.ok ((tilesList W H tw th).flatMap (tileFilesA env [] base tw th)) = _
    rw [hnil]
  · intro fs hfs
    exact splitterRun_ok_length env base (some []) W H tw th fs hfs

/-- Witness for C10's amended statement at a concrete input. -/
theorem C10_amended_not_equivalent_witness :
    splitAnnRun envC "1" none 10 10 10 10 = .error PErr.fnf ∧
    splitAnnRun envC "1" (some []) 10 10 10 10 = .ok [] :=
  ⟨(C10_amended_not_equivalent envC "1" 10 10 10 10).1,
   (C10_amended_not_equivalent envC "1" 10 10 10 10).2.2.1⟩
